import Mathlib

/-
Shallow embedding of the simulation-report-service core
(app/services/simulation_service.py, app/services/report_service.py,
app/storage/blob_storage.py, app/handlers/registry.py, app/workers/tasks.py,
app/config.py, app/models/simulation.py, app/models/report.py).

Conventions of the embedding:
- opaque UUIDs are modelled as Nat; `str(uuid)` becomes `toString`;
- wall-clock timestamps (datetime.utcnow()) are modelled as a Nat argument
  `now` threaded into each operation that reads the clock;
- JSON documents are an inductive `Json` type; numeric literals are
  modelled as integers (the claims under study do not involve float
  formatting); `json.dumps(obj, default=str)` with the default separators
  and ensure_ascii=True is modelled by `dumps`;
- the SQLAlchemy session is modelled by explicit state passing: a table is
  a list of records, a commit is returning the updated record/list;
- raised exceptions are modelled by `Except ServiceError` (or an
  `Option ServiceError` component when the surrounding state must be
  returned as well).
-/

/-- JSON documents (app code passes `dict[str, Any]` parameter/result
documents around; object member order is insertion order, as in Python). -/
inductive Json where
  | null : Json
  | bool : Bool → Json
  | num : Int → Json
  | str : String → Json
  | arr : List Json → Json
  | obj : List (String × Json) → Json
deriving Repr

/-- Lowercase hex digit, as produced by the json module's \uXXXX escapes. -/
def hexDigit (n : Nat) : Char :=
  if n < 10 then Char.ofNat (48 + n) else Char.ofNat (87 + n)

/-- A \uXXXX escape for a code unit below 0x10000. -/
def uEscape4 (n : Nat) : String :=
  "\\u" ++ String.mk [hexDigit (n / 4096 % 16), hexDigit (n / 256 % 16),
                      hexDigit (n / 16 % 16), hexDigit (n % 16)]

/-- ensure_ascii escape of a non-printable or non-ASCII code point
(surrogate pair above 0xFFFF, as CPython's json encoder emits). -/
def uEscape (cp : Nat) : String :=
  if cp < 65536 then uEscape4 cp
  else uEscape4 (55296 + (cp - 65536) / 1024) ++ uEscape4 (56320 + (cp - 65536) % 1024)

/-- Escape one character as CPython json.dumps (ensure_ascii=True) does. -/
def escapeChar (c : Char) : String :=
  if c = '"' then "\\\""
  else if c = '\\' then "\\\\"
  else if c = '\n' then "\\n"
  else if c = '\r' then "\\r"
  else if c = '\t' then "\\t"
  else if c.toNat = 8 then "\\b"
  else if c.toNat = 12 then "\\f"
  else if c.toNat < 32 || c.toNat ≥ 127 then uEscape c.toNat
  else String.singleton c

/-- JSON string literal encoding, ensure_ascii=True. -/
def encodeString (s : String) : String :=
  "\"" ++ String.join (s.toList.map escapeChar) ++ "\""

mutual
/-- json.dumps(obj, default=str) with default separators. The output is
pure ASCII, so its UTF-8 byte length equals its character count. -/
def dumps : Json → String
  | .null => "null"
  | .bool true => "true"
  | .bool false => "false"
  | .num n => toString n
  | .str s => encodeString s
  | .arr xs => "[" ++ dumpsList xs ++ "]"
  | .obj kvs => "\x7b" ++ dumpsObj kvs ++ "\x7d"

/-- Array members joined by the default item separator ", ". -/
def dumpsList : List Json → String
  | [] => ""
  | [x] => dumps x
  | x :: y :: xs => dumps x ++ ", " ++ dumpsList (y :: xs)

/-- Object members joined by ", ", key and value joined by ": ". -/
def dumpsObj : List (String × Json) → String
  | [] => ""
  | [kv] => encodeString kv.1 ++ ": " ++ dumps kv.2
  | kv :: kw :: kvs => encodeString kv.1 ++ ": " ++ dumps kv.2 ++ ", " ++ dumpsObj (kw :: kvs)
end

example : dumps (Json.obj [("a", Json.num 1), ("b", Json.arr [Json.null, Json.bool true])]) =
    "\x7b\"a\": 1, \"b\": [null, true]\x7d" := by decide

example : (dumps (Json.str "é")).utf8ByteSize = 8 := by decide

/-- SimulationStatus enum (app/models/simulation.py). -/
inductive SimulationStatus where
  | PENDING | RUNNING | COMPLETED | FAILED | CANCELLED
deriving DecidableEq, Repr

/-- `status.value` of the Python string enum. -/
def statusValue : SimulationStatus → String
  | .PENDING => "PENDING"
  | .RUNNING => "RUNNING"
  | .COMPLETED => "COMPLETED"
  | .FAILED => "FAILED"
  | .CANCELLED => "CANCELLED"

/-- ReportStatus enum (app/models/report.py). -/
inductive ReportStatus where
  | PENDING | GENERATING | COMPLETED | FAILED
deriving DecidableEq, Repr

/-- SimulationJob record (app/models/simulation.py). UUIDs are Nat,
timestamps are Nat, `progress` (Numeric(5,4)) is a rational. -/
structure SimulationJob where
  id : Nat
  user_id : Nat
  simulation_type : String
  status : SimulationStatus
  progress : Option ℚ := none
  parameters : Json
  parameters_s3_key : Option String := none
  result_s3_key : Option String := none
  result_size_bytes : Option Nat := none
  error_code : Option String := none
  error_message : Option String := none
  job_metadata : Json := Json.obj []
  callback_url : Option String := none
  started_at : Option Nat := none
  completed_at : Option Nat := none
deriving Repr

/-- Report record (app/models/report.py). -/
structure Report where
  id : Nat
  user_id : Nat
  report_type : String
  output_format : String
  status : ReportStatus
  simulation_job_ids : List Nat
  parameters : Json
  s3_key : Option String := none
  content_type : Option String := none
  size_bytes : Option Nat := none
  error_code : Option String := none
  error_message : Option String := none
  completed_at : Option Nat := none
deriving Repr

/-- Service-layer exceptions (app/services/exceptions.py), plus the plain
ValueError raised by SimulationService.cancel_job (its message is
"Cannot cancel job with status \x7bstatus\x7d", so the carried status is
exactly what the message names) and the ClientError propagated by the S3
client on a failed download. -/
inductive ServiceError where
  | simulationNotFound (job_id : Nat)
  | simulationNotCompleted (job_id : Nat)
  | resultNotFound (job_id : Nat)
  | reportNotFound (report_id : Nat)
  | invalidCancelState (current : SimulationStatus)
  | storageUnavailable (key : String)
deriving DecidableEq, Repr

/-- `str(e)` for each modelled exception, mirroring the message strings of
app/services/exceptions.py and the service code. -/
def errorText : ServiceError → String
  | .simulationNotFound jid => "Simulation with ID " ++ toString jid ++ " not found"
  | .simulationNotCompleted jid => "Simulation " ++ toString jid ++ " is not completed yet"
  | .resultNotFound jid => "Result for simulation " ++ toString jid ++ " not found"
  | .reportNotFound rid => "Report with ID " ++ toString rid ++ " not found"
  | .invalidCancelState st => "Cannot cancel job with status " ++ statusValue st
  | .storageUnavailable key => "Failed to download JSON from S3: " ++ key

/-- Blob store objects: upload_json stores the bytes of
json.dumps(data, default=str).encode("utf-8") with content type
application/json; upload_file stores raw bytes (modelled as a String of
the bytes). The JSON objects are kept at the document level: the byte
round-trip json.loads(json.dumps(d)) = d of the external json library is
the transport and is not re-modelled, while the byte SIZE of the stored
object is computed from the actual serialization via `dumps`. -/
inductive BlobValue where
  | jsonDoc (doc : Json)
  | fileDoc (content : String) (content_type : String)
deriving Repr

/-- The blob store: a key-to-object map (new puts shadow older ones). -/
abbrev BlobStore := List (String × BlobValue)

/-- Internal lookup of the newest object at a key. -/
def blobGet (store : BlobStore) (key : String) : Option BlobValue :=
  (store.find? (fun kv => kv.1 == key)).map (fun kv => kv.2)

/-- S3Storage.upload_json (app/storage/blob_storage.py). -/
def upload_json (store : BlobStore) (key : String) (data : Json) : BlobStore :=
  (key, BlobValue.jsonDoc data) :: store

/-- S3Storage.download_json: returns the parsed document, or fails (the
boto3 ClientError on a missing key) modelled as none. -/
def download_json (store : BlobStore) (key : String) : Option Json :=
  match blobGet store key with
  | some (BlobValue.jsonDoc d) => some d
  | _ => none

/-- S3Storage.upload_file. -/
def upload_file (store : BlobStore) (key : String) (content : String)
    (content_type : String) : BlobStore :=
  (key, BlobValue.fileDoc content content_type) :: store

/-- S3Storage.get_object_size: ContentLength of the stored object, None if
the key is absent. For a JSON object this is the UTF-8 byte length of its
serialization. -/
def get_object_size (store : BlobStore) (key : String) : Option Nat :=
  match blobGet store key with
  | some (BlobValue.jsonDoc d) => some (dumps d).utf8ByteSize
  | some (BlobValue.fileDoc c _) => some c.utf8ByteSize
  | none => none

/-- S3Storage.build_simulation_key. -/
def build_simulation_key (user_id job_id filename : String) : String :=
  "simulations/" ++ user_id ++ "/" ++ job_id ++ "/" ++ filename

/-- S3Storage.build_report_key. -/
def build_report_key (user_id report_id filename : String) : String :=
  "reports/" ++ user_id ++ "/" ++ report_id ++ "/" ++ filename

/-- Settings (app/config.py); only the field the claims touch. -/
structure Settings where
  PARAMETERS_SIZE_THRESHOLD : Nat

/-- The default configuration: PARAMETERS_SIZE_THRESHOLD = 100 * 1024. -/
def defaultSettings : Settings := ⟨100 * 1024⟩

/-- SimulationCreate request schema (app/schemas/simulation.py). -/
structure SimulationCreate where
  simulation_type : String
  parameters : Json
  job_metadata : Option Json := none
  callback_url : Option String := none

/-- The placeholder marker persisted in place of spilled parameters. -/
def s3ReferenceMarker : Json := Json.obj [("_s3_reference", Json.bool true)]

/-- SimulationService.create_job. The database assigns the fresh id at
flush time; here it is the `job_id` argument. Returns the persisted job
and the blob store after the call (the enqueue of the processing task is
the fire-and-forget `process_simulation.delay(job_id)`). -/
def create_job (settings : Settings) (user_id : Nat) (data : SimulationCreate)
    (job_id : Nat) (store : BlobStore) : SimulationJob × BlobStore :=
  let job : SimulationJob :=
    { id := job_id
      user_id := user_id
      simulation_type := data.simulation_type
      job_metadata := data.job_metadata.getD (Json.obj [])
      callback_url := data.callback_url
      status := SimulationStatus.PENDING
      parameters := Json.obj [] }
  let params_json := dumps data.parameters
  let params_size := params_json.utf8ByteSize
  if params_size > settings.PARAMETERS_SIZE_THRESHOLD then
    let s3_key := build_simulation_key (toString user_id) (toString job_id) "parameters.json"
    let store := upload_json store s3_key data.parameters
    ({ job with parameters := s3ReferenceMarker, parameters_s3_key := some s3_key }, store)
  else
    ({ job with parameters := data.parameters }, store)

/-- SimulationService.get_job: lookup filtered by job id AND owner id;
SimulationNotFoundError if no row matches. -/
def get_job (db : List SimulationJob) (user_id job_id : Nat) :
    Except ServiceError SimulationJob :=
  match db.find? (fun j => j.id == job_id && j.user_id == user_id) with
  | none => Except.error (ServiceError.simulationNotFound job_id)
  | some job => Except.ok job

/-- SimulationService.get_job_by_id: lookup by id only (worker path). -/
def get_job_by_id (db : List SimulationJob) (job_id : Nat) :
    Except ServiceError SimulationJob :=
  match db.find? (fun j => j.id == job_id) with
  | none => Except.error (ServiceError.simulationNotFound job_id)
  | some job => Except.ok job

/-- SimulationService.get_job_parameters: fetch from S3 when a reference
key is set, else the inline document. The S3 fetch can fail (none). -/
def get_job_parameters (store : BlobStore) (job : SimulationJob) : Option Json :=
  match job.parameters_s3_key with
  | some key => download_json store key
  | none => some job.parameters

/-- SimulationService.update_job_status, as a transformation of the job
record it fetched by id (the commit persists the record unchanged
otherwise). `if error_code:` tests Python truthiness, so an empty string
is not persisted. -/
def update_job_status (job : SimulationJob) (status : SimulationStatus)
    (progress : Option ℚ) (error_code error_message : Option String)
    (now : Nat) : SimulationJob :=
  let job := { job with status := status }
  let job := match progress with
    | some p => { job with progress := some p }
    | none => job
  let job := if status = SimulationStatus.RUNNING ∧ job.started_at = (none : Option Nat)
    then { job with started_at := some now } else job
  let job := if status = SimulationStatus.COMPLETED ∨ status = SimulationStatus.FAILED
      ∨ status = SimulationStatus.CANCELLED
    then { job with completed_at := some now } else job
  let job := match error_code with
    | some c => if c ≠ "" then { job with error_code := some c } else job
    | none => job
  let job := match error_message with
    | some m => if m ≠ "" then { job with error_message := some m } else job
    | none => job
  job

/-- SimulationService.save_result: upload the result document, record the
reference and the stored object size, force COMPLETED, stamp completion,
set progress to 1.0. -/
def save_result (job : SimulationJob) (result : Json) (store : BlobStore)
    (now : Nat) : SimulationJob × BlobStore :=
  let s3_key := build_simulation_key (toString job.user_id) (toString job.id) "result.json"
  let store := upload_json store s3_key result
  ({ job with
      result_s3_key := some s3_key
      result_size_bytes := get_object_size store s3_key
      status := SimulationStatus.COMPLETED
      completed_at := some now
      progress := some 1 }, store)

/-- SimulationService.cancel_job, at the database level: fetch scoped to
the owner, reject (ValueError) unless PENDING or RUNNING — the raise
happens before any field assignment, so the table is returned unchanged —
else set CANCELLED with a completion timestamp and commit. -/
def cancel_job (db : List SimulationJob) (user_id job_id : Nat) (now : Nat) :
    Except ServiceError SimulationJob × List SimulationJob :=
  match get_job db user_id job_id with
  | Except.error e => (Except.error e, db)
  | Except.ok job =>
    if job.status = SimulationStatus.PENDING ∨ job.status = SimulationStatus.RUNNING then
      let job := { job with status := SimulationStatus.CANCELLED, completed_at := some now }
      (Except.ok job, db.map (fun x => if x.id == job_id then job else x))
    else
      (Except.error (ServiceError.invalidCancelState job.status), db)

/-- SimulationService.get_job_result: a status-only view when not
COMPLETED; ResultNotFoundError when COMPLETED without a result reference;
else the full result view with the downloaded payload. -/
def get_job_result (db : List SimulationJob) (store : BlobStore)
    (user_id job_id : Nat) : Except ServiceError Json :=
  match get_job db user_id job_id with
  | Except.error e => Except.error e
  | Except.ok job =>
    if job.status ≠ SimulationStatus.COMPLETED then
      Except.ok (Json.obj
        [("job_id", Json.str (toString job.id)),
         ("status", Json.str (statusValue job.status)),
         ("message", Json.str ("Simulation is " ++ (statusValue job.status).toLower))])
    else
      match job.result_s3_key with
      | none => Except.error (ServiceError.resultNotFound job_id)
      | some key =>
        match download_json store key with
        | none => Except.error (ServiceError.storageUnavailable key)
        | some result_data =>
          Except.ok (Json.obj
            [("job_id", Json.str (toString job.id)),
             ("status", Json.str "COMPLETED"),
             ("result", result_data),
             ("completed_at",
              match job.completed_at with
              | some t => Json.str (toString t)
              | none => Json.null)])

/-- A simulation handler (app/handlers/registry.py): `execute(job_id,
simulation_type, parameters, progress_callback) -> result`. Handlers are
external domain code; they are modelled as pure functions of the
arguments the task passes them. The progress callback only re-persists
RUNNING+progress and does not feed back into the result, so it is not a
parameter of the pure model. -/
structure SimulationHandler where
  execute : String → String → Json → Json

/-- A report handler: `generate(report_id, report_type, output_format,
parameters, simulation_results) -> (file_content, content_type,
filename)`; bytes are modelled as a String of the bytes. -/
structure ReportHandler where
  generate : String → String → String → Json → List Json → String × String × String

/-- SimulationHandlerRegistry._handlers / ReportHandlerRegistry._handlers:
a tag-keyed mapping; `register` overwrites, `get_handler` is `dict.get`.
The registry state is modelled as an association list where the newest
registration for a tag shadows older ones. -/
def registryGet {α : Type} (registry : List (String × α)) (tag : String) : Option α :=
  (registry.find? (fun kv => kv.1 == tag)).map (fun kv => kv.2)

/-- _default_simulation_handler (app/workers/tasks.py): sleeps briefly and
returns an echo of the simulation type and the input parameters. -/
def default_simulation_handler (simulation_type : String) (parameters : Json) : Json :=
  Json.obj
    [("simulation_type", Json.str simulation_type),
     ("input_parameters", parameters),
     ("output", Json.obj
       [("message", Json.str "Simulation completed (default handler)"),
        ("note", Json.str "Register a handler for this simulation type to get real results")]),
     ("metrics", Json.obj [("processing_time_seconds", Json.num 2)])]

/-- process_simulation (app/workers/tasks.py), acting on the job record it
fetched by id: set RUNNING, resolve parameters, dispatch to the registered
handler for the simulation type or fall back to the default handler, and
persist the result via save_result. A failure to resolve the parameters
from the blob store raises, which the task converts into a FAILED update
with error code SIMULATION_ERROR and the exception message, then
re-raises for the retry policy. -/
def process_simulation (registry : List (String × SimulationHandler))
    (store : BlobStore) (job : SimulationJob) (now : Nat) :
    SimulationJob × BlobStore :=
  let job := update_job_status job SimulationStatus.RUNNING none none none now
  match get_job_parameters store job with
  | none =>
    (update_job_status job SimulationStatus.FAILED none
      (some "SIMULATION_ERROR")
      (some (errorText (ServiceError.storageUnavailable
        (job.parameters_s3_key.getD "")))) now, store)
  | some parameters =>
    let result := match registryGet registry job.simulation_type with
      | some handler => handler.execute (toString job.id) job.simulation_type parameters
      | none => default_simulation_handler job.simulation_type parameters
    save_result job result store now

/-- ReportCreate request schema (app/schemas/report.py). -/
structure ReportCreate where
  report_type : String
  output_format : String
  simulation_job_ids : List Nat
  parameters : Option Json := none

/-- The validation loop at the head of ReportService.create_report: for
each referenced id, in order, the job must exist scoped to the owner
(else SimulationNotFoundError naming the id) and be COMPLETED (else
SimulationNotCompletedError naming the id). Returns the first error. -/
def validateSimulationRefs (db : List SimulationJob) (user_id : Nat) :
    List Nat → Option ServiceError
  | [] => none
  | sim_id :: rest =>
    match db.find? (fun j => j.id == sim_id && j.user_id == user_id) with
    | none => some (ServiceError.simulationNotFound sim_id)
    | some job =>
      if job.status ≠ SimulationStatus.COMPLETED then
        some (ServiceError.simulationNotCompleted sim_id)
      else
        validateSimulationRefs db user_id rest

/-- ReportService.create_report: validate every referenced job, then (and
only then) persist a PENDING report and enqueue generation work. The
report table and the queue of enqueued report ids are passed and returned
explicitly; on a validation error they come back unchanged (the exception
propagates before any add/commit/enqueue). -/
def create_report (db : List SimulationJob) (reports : List Report)
    (queue : List Nat) (user_id : Nat) (data : ReportCreate) (report_id : Nat) :
    Except ServiceError Report × List Report × List Nat :=
  match validateSimulationRefs db user_id data.simulation_job_ids with
  | some e => (Except.error e, reports, queue)
  | none =>
    let report : Report :=
      { id := report_id
        user_id := user_id
        report_type := data.report_type
        output_format := data.output_format
        simulation_job_ids := data.simulation_job_ids
        parameters := data.parameters.getD (Json.obj [])
        status := ReportStatus.PENDING }
    (Except.ok report, reports ++ [report], queue ++ [report_id])

/-- ReportService.update_report_status as a record transformation:
completed_at is stamped for COMPLETED/FAILED; error fields follow the
same truthiness rule as for jobs. -/
def update_report_status (report : Report) (status : ReportStatus)
    (error_code error_message : Option String) (now : Nat) : Report :=
  let report := { report with status := status }
  let report := if status = ReportStatus.COMPLETED ∨ status = ReportStatus.FAILED
    then { report with completed_at := some now } else report
  let report := match error_code with
    | some c => if c ≠ "" then { report with error_code := some c } else report
    | none => report
  let report := match error_message with
    | some m => if m ≠ "" then { report with error_message := some m } else report
    | none => report
  report

/-- ReportService.save_report_file: upload the file bytes under the report
key convention, record reference, content type and size, force COMPLETED,
stamp completion. -/
def save_report_file (report : Report) (file_content content_type filename : String)
    (store : BlobStore) (now : Nat) : Report × BlobStore :=
  let s3_key := build_report_key (toString report.user_id) (toString report.id) filename
  let store := upload_file store s3_key file_content content_type
  ({ report with
      s3_key := some s3_key
      content_type := some content_type
      size_bytes := some file_content.utf8ByteSize
      status := ReportStatus.COMPLETED
      completed_at := some now }, store)

/-- `indent` levels of two spaces, for json.dumps(..., indent=2). -/
def indentSpaces (level : Nat) : String :=
  String.mk (List.replicate (2 * level) ' ')

mutual
/-- json.dumps(obj, indent=2, default=str): each container member on its
own line, item separator "," followed by the newline, key separator ": ",
empty containers printed without newlines. `level` is the nesting depth of
the value being printed. -/
def dumpsIndent : Nat → Json → String
  | _, .null => "null"
  | _, .bool true => "true"
  | _, .bool false => "false"
  | _, .num n => toString n
  | _, .str s => encodeString s
  | _, .arr [] => "[]"
  | level, .arr (x :: xs) =>
    "[\n" ++ dumpsIndentList (level + 1) (x :: xs) ++ "\n" ++ indentSpaces level ++ "]"
  | _, .obj [] => "\x7b\x7d"
  | level, .obj (kv :: kvs) =>
    "\x7b\n" ++ dumpsIndentObj (level + 1) (kv :: kvs) ++ "\n" ++ indentSpaces level ++ "\x7d"

/-- Indented array members, one per line. -/
def dumpsIndentList : Nat → List Json → String
  | _, [] => ""
  | level, [x] => indentSpaces level ++ dumpsIndent level x
  | level, x :: y :: xs =>
    indentSpaces level ++ dumpsIndent level x ++ ",\n" ++ dumpsIndentList level (y :: xs)

/-- Indented object members, one per line. -/
def dumpsIndentObj : Nat → List (String × Json) → String
  | _, [] => ""
  | level, [kv] => indentSpaces level ++ encodeString kv.1 ++ ": " ++ dumpsIndent level kv.2
  | level, kv :: kw :: kvs =>
    indentSpaces level ++ encodeString kv.1 ++ ": " ++ dumpsIndent level kv.2 ++ ",\n"
      ++ dumpsIndentObj level (kw :: kvs)
end

example : dumpsIndent 0 (Json.obj [("a", Json.arr [Json.num 1, Json.num 2])]) =
    "\x7b\n  \"a\": [\n    1,\n    2\n  ]\n\x7d" := by decide

/-- _default_report_handler (app/workers/tasks.py): a JSON document
embedding the raw inputs, serialized with indent=2, always
application/json named report.json regardless of the requested format. -/
def default_report_handler (report_type output_format : String)
    (parameters : Json) (simulation_results : List Json) :
    String × String × String :=
  let report_data := Json.obj
    [("report_type", Json.str report_type),
     ("output_format", Json.str output_format),
     ("parameters", parameters),
     ("simulation_results", Json.arr simulation_results),
     ("note", Json.str "Register a handler for this report type to get formatted reports")]
  (dumpsIndent 0 report_data, "application/json", "report.json")

/-- The gathering loop of generate_report (app/workers/tasks.py): for each
referenced simulation id, in order, fetch the result view via
SimulationService.get_job_result scoped to the report owner; the first
raised exception aborts the loop. -/
def gather_simulation_results (db : List SimulationJob) (store : BlobStore)
    (user_id : Nat) : List Nat → Except ServiceError (List Json)
  | [] => Except.ok []
  | sim_id :: rest =>
    match get_job_result db store user_id sim_id with
    | Except.error e => Except.error e
    | Except.ok result =>
      match gather_simulation_results db store user_id rest with
      | Except.error e => Except.error e
      | Except.ok results => Except.ok (result :: results)

/-- generate_report (app/workers/tasks.py), acting on the report record it
fetched by id: set GENERATING, gather every referenced job's result view,
dispatch to the registered handler for the report type or the default
handler, persist the file via save_report_file. Any exception while
gathering is caught by the task, which marks the report FAILED with error
code REPORT_ERROR and the exception message and re-raises; the raised
error is the third component (none on success). -/
def generate_report (db : List SimulationJob) (store : BlobStore)
    (registry : List (String × ReportHandler)) (report : Report) (now : Nat) :
    Report × BlobStore × Option ServiceError :=
  let report := update_report_status report ReportStatus.GENERATING none none now
  match gather_simulation_results db store report.user_id report.simulation_job_ids with
  | Except.error e =>
    (update_report_status report ReportStatus.FAILED
      (some "REPORT_ERROR") (some (errorText e)) now, store, some e)
  | Except.ok simulation_results =>
    let generated := match registryGet registry report.report_type with
      | some handler =>
        handler.generate (toString report.id) report.report_type
          report.output_format report.parameters simulation_results
      | none =>
        default_report_handler report.report_type report.output_format
          report.parameters simulation_results
    let (report, store) :=
      save_report_file report generated.1 generated.2.1 generated.2.2 store now
    (report, store, none)

/-- Reading back the newest object stored at a key. -/
theorem download_json_upload_json (store : BlobStore) (key : String) (data : Json) :
    download_json (upload_json store key data) key = some data := by
  simp [download_json, upload_json, blobGet, List.find?]

/-- Size of the newest JSON object stored at a key. -/
theorem get_object_size_upload_json (store : BlobStore) (key : String) (data : Json) :
    get_object_size (upload_json store key data) key = some (dumps data).utf8ByteSize := by
  simp [get_object_size, upload_json, blobGet, List.find?]

/-- C1: create_job serializes the parameters; when the UTF-8 byte size of
the serialization exceeds the configured threshold (default 100 KiB =
102400 bytes) the document is uploaded under
simulations/\x7buser_id\x7d/\x7bjob_id\x7d/parameters.json and the record keeps only that
reference plus the placeholder marker; at or below the threshold the
document is stored inline and no blob-store reference is set. -/
theorem create_job_storage_placement (st : Settings) (uid : Nat)
    (data : SimulationCreate) (jid : Nat) (store : BlobStore) :
    defaultSettings.PARAMETERS_SIZE_THRESHOLD = 102400 ∧
    ((dumps data.parameters).utf8ByteSize > st.PARAMETERS_SIZE_THRESHOLD →
      (create_job st uid data jid store).1.parameters = s3ReferenceMarker ∧
      (create_job st uid data jid store).1.parameters_s3_key =
        some (build_simulation_key (toString uid) (toString jid) "parameters.json") ∧
      download_json (create_job st uid data jid store).2
        (build_simulation_key (toString uid) (toString jid) "parameters.json") =
          some data.parameters) ∧
    ((dumps data.parameters).utf8ByteSize ≤ st.PARAMETERS_SIZE_THRESHOLD →
      (create_job st uid data jid store).1.parameters = data.parameters ∧
      (create_job st uid data jid store).1.parameters_s3_key = none ∧
      (create_job st uid data jid store).2 = store) := by
  refine ⟨rfl, ?_, ?_⟩
  · intro h
    simp [create_job, if_pos h, download_json_upload_json]
  · intro h
    simp [create_job, if_neg (Nat.not_lt.mpr h)]

/-- C1 witness: with a threshold of 1 byte an empty object (serializing to
2 bytes) is spilled to the blob store; with the default threshold it is
stored inline. -/
theorem create_job_storage_placement_witness :
    ((dumps (Json.obj [])).utf8ByteSize > (Settings.mk 1).PARAMETERS_SIZE_THRESHOLD ∧
      (create_job (Settings.mk 1) 7 ⟨"monte_carlo", Json.obj [], none, none⟩ 3 []).1.parameters_s3_key =
        some "simulations/7/3/parameters.json") ∧
    ((dumps (Json.obj [])).utf8ByteSize ≤ defaultSettings.PARAMETERS_SIZE_THRESHOLD ∧
      (create_job defaultSettings 7 ⟨"monte_carlo", Json.obj [], none, none⟩ 3 []).1.parameters_s3_key =
        none) := by
  constructor
  · constructor
    · decide
    · exact ((create_job_storage_placement (Settings.mk 1) 7
        ⟨"monte_carlo", Json.obj [], none, none⟩ 3 []).2.1 (by decide)).2.1
  · constructor
    · decide
    · exact ((create_job_storage_placement defaultSettings 7
        ⟨"monte_carlo", Json.obj [], none, none⟩ 3 []).2.2 (by decide)).2.1

/-- C2: resolving the parameters of a freshly created job returns the
originally submitted document, whether it was stored inline or spilled to
the blob store. -/
theorem create_job_parameters_round_trip (st : Settings) (uid : Nat)
    (data : SimulationCreate) (jid : Nat) (store : BlobStore) :
    get_job_parameters (create_job st uid data jid store).2
      (create_job st uid data jid store).1 = some data.parameters := by
  by_cases h : (dumps data.parameters).utf8ByteSize > st.PARAMETERS_SIZE_THRESHOLD
  · simp only [create_job, if_pos h, get_job_parameters]
    exact download_json_upload_json _ _ _
  · simp only [create_job, if_neg h, get_job_parameters]

/-- C4: after save_result the job is COMPLETED with progress 1.0, a
completion timestamp, the result reference under the deterministic key
simulations/\x7buser_id\x7d/\x7bjob_id\x7d/result.json, and the stored object's byte
size recorded. -/
theorem save_result_completes (job : SimulationJob) (result : Json)
    (store : BlobStore) (now : Nat) :
    (save_result job result store now).1.status = SimulationStatus.COMPLETED ∧
    (save_result job result store now).1.progress = some 1 ∧
    (save_result job result store now).1.completed_at = some now ∧
    (save_result job result store now).1.result_s3_key =
      some (build_simulation_key (toString job.user_id) (toString job.id) "result.json") ∧
    (save_result job result store now).1.result_size_bytes =
      some (dumps result).utf8ByteSize := by
  simp [save_result, get_object_size_upload_json]

/-- C5: cancel_job succeeds exactly when the job is PENDING or RUNNING,
setting status CANCELLED with a completion timestamp and committing the
updated record; in any other status it raises an invalid-state error
naming the current status, and the table is returned unchanged. -/
theorem cancel_job_spec (db : List SimulationJob) (uid jid now : Nat)
    (job : SimulationJob) (h : get_job db uid jid = Except.ok job) :
    ((job.status = SimulationStatus.PENDING ∨ job.status = SimulationStatus.RUNNING) →
      cancel_job db uid jid now =
        (Except.ok { job with status := SimulationStatus.CANCELLED, completed_at := some now },
         db.map (fun x => if x.id == jid then
           { job with status := SimulationStatus.CANCELLED, completed_at := some now }
           else x))) ∧
    (¬ (job.status = SimulationStatus.PENDING ∨ job.status = SimulationStatus.RUNNING) →
      cancel_job db uid jid now =
        (Except.error (ServiceError.invalidCancelState job.status), db)) := by
  constructor
  · intro hs
    simp [cancel_job, h, if_pos hs]
  · intro hs
    simp [cancel_job, h, if_neg hs]

/-- A concrete PENDING job owned by user 2, for concrete evaluations. -/
def samplePendingJob : SimulationJob :=
  { id := 1
    user_id := 2
    simulation_type := "mc"
    status := SimulationStatus.PENDING
    parameters := Json.obj [] }

/-- The same job already COMPLETED. -/
def sampleCompletedJob : SimulationJob :=
  { samplePendingJob with status := SimulationStatus.COMPLETED }

/-- C5 witness: a PENDING job cancels to CANCELLED with a completion
timestamp; the same job already COMPLETED is rejected with the error
naming COMPLETED, the table untouched. -/
theorem cancel_job_spec_witness :
    (cancel_job [samplePendingJob] 2 1 9 =
      (Except.ok { samplePendingJob with
                     status := SimulationStatus.CANCELLED
                     completed_at := some 9 },
       [{ samplePendingJob with
            status := SimulationStatus.CANCELLED
            completed_at := some 9 }])) ∧
    (cancel_job [sampleCompletedJob] 2 1 9 =
      (Except.error (ServiceError.invalidCancelState SimulationStatus.COMPLETED),
       [sampleCompletedJob])) := by
  constructor
  · exact (cancel_job_spec [samplePendingJob] 2 1 9 samplePendingJob rfl).1 (Or.inl rfl)
  · exact (cancel_job_spec [sampleCompletedJob] 2 1 9 sampleCompletedJob rfl).2 (by simp [sampleCompletedJob, samplePendingJob])

/-- C10: when no job with the requested id is owned by the requesting
user — whether no such job exists at all or it belongs to another user —
get_job fails with exactly the same not-found error, so the two states
are observationally indistinguishable. -/
theorem get_job_ownership_indistinguishable (db₁ db₂ : List SimulationJob)
    (uid jid : Nat)
    (h₁ : ∀ j ∈ db₁, j.id = jid → j.user_id ≠ uid)
    (h₂ : ∀ j ∈ db₂, j.id = jid → j.user_id ≠ uid) :
    get_job db₁ uid jid = Except.error (ServiceError.simulationNotFound jid) ∧
    get_job db₁ uid jid = get_job db₂ uid jid := by
  have key : ∀ db : List SimulationJob, (∀ j ∈ db, j.id = jid → j.user_id ≠ uid) →
      get_job db uid jid = Except.error (ServiceError.simulationNotFound jid) := by
    intro db h
    have : db.find? (fun j => j.id == jid && j.user_id == uid) = none := by
      rw [List.find?_eq_none]
      intro j hj
      simp only [Bool.and_eq_true, beq_iff_eq, not_and]
      exact h j hj
    simp [get_job, this]
  exact ⟨key db₁ h₁, (key db₁ h₁).trans (key db₂ h₂).symm⟩

/-- C10 witness: an empty table and a table holding job 5 owned by user 2
give user 1 the identical not-found error for job 5. -/
theorem get_job_ownership_indistinguishable_witness :
    get_job [] 1 5 = Except.error (ServiceError.simulationNotFound 5) ∧
    get_job [] 1 5 = get_job [{ samplePendingJob with id := 5 }] 1 5 :=
  get_job_ownership_indistinguishable [] [{ samplePendingJob with id := 5 }] 1 5
    (by simp) (by simp [samplePendingJob])

/-- get_job succeeds with exactly the first table row matching id+owner. -/
theorem get_job_ok_iff (db : List SimulationJob) (uid jid : Nat) (j : SimulationJob) :
    get_job db uid jid = Except.ok j ↔
      db.find? (fun x => x.id == jid && x.user_id == uid) = some j := by
  unfold get_job
  cases db.find? (fun x => x.id == jid && x.user_id == uid) <;> simp

/-- Unfolding equation for one step of the validation loop. -/
theorem validateSimulationRefs_cons (db : List SimulationJob) (uid sid : Nat)
    (rest : List Nat) :
    validateSimulationRefs db uid (sid :: rest) =
      match db.find? (fun j => j.id == sid && j.user_id == uid) with
      | none => some (ServiceError.simulationNotFound sid)
      | some job =>
        if job.status ≠ SimulationStatus.COMPLETED then
          some (ServiceError.simulationNotCompleted sid)
        else validateSimulationRefs db uid rest := by
  rfl

/-- A reference list whose members all resolve to COMPLETED owned jobs
passes the create_report validation loop. -/
theorem validateSimulationRefs_none (db : List SimulationJob) (uid : Nat)
    (ids : List Nat)
    (h : ∀ sid ∈ ids, ∃ j, get_job db uid sid = Except.ok j ∧
      j.status = SimulationStatus.COMPLETED) :
    validateSimulationRefs db uid ids = none := by
  induction ids with
  | nil => rfl
  | cons sid rest ih =>
    obtain ⟨j, hj, hstat⟩ := h sid (List.mem_cons_self sid rest)
    rw [get_job_ok_iff] at hj
    unfold validateSimulationRefs
    rw [hj]
    simp only [hstat, ne_eq, not_true_eq_false, if_false, ite_false]
    exact ih (fun x hx => h x (List.mem_cons_of_mem _ hx))

/-- The validation loop skips a passing prefix. -/
theorem validateSimulationRefs_append (db : List SimulationJob) (uid : Nat)
    (pre rest : List Nat)
    (h : ∀ sid ∈ pre, ∃ j, get_job db uid sid = Except.ok j ∧
      j.status = SimulationStatus.COMPLETED) :
    validateSimulationRefs db uid (pre ++ rest) =
      validateSimulationRefs db uid rest := by
  induction pre with
  | nil => rfl
  | cons sid pre ih =>
    obtain ⟨j, hj, hstat⟩ := h sid (List.mem_cons_self sid pre)
    rw [get_job_ok_iff] at hj
    rw [List.cons_append, validateSimulationRefs_cons, hj]
    simp only [hstat, ne_eq, not_true_eq_false, if_false, ite_false]
    exact ih (fun x hx => h x (List.mem_cons_of_mem _ hx))

/-- C3: create_report validates the referenced jobs in order; the first
reference that is absent or foreign fails the call with the not-found
error naming it, the first that exists but is not COMPLETED fails with the
not-completed error naming it, and in either case the report table and
the generation queue come back unchanged; when every reference passes,
the PENDING report is persisted and its id enqueued. -/
theorem create_report_validation (db : List SimulationJob) (reports : List Report)
    (queue : List Nat) (uid : Nat) (data : ReportCreate) (rid : Nat) :
    ((∀ sid ∈ data.simulation_job_ids, ∃ j, get_job db uid sid = Except.ok j ∧
        j.status = SimulationStatus.COMPLETED) →
      ∃ r, create_report db reports queue uid data rid =
          (Except.ok r, reports ++ [r], queue ++ [rid]) ∧
        r.status = ReportStatus.PENDING ∧ r.id = rid ∧ r.user_id = uid ∧
        r.simulation_job_ids = data.simulation_job_ids) ∧
    (∀ pre sid post, data.simulation_job_ids = pre ++ sid :: post →
      (∀ x ∈ pre, ∃ j, get_job db uid x = Except.ok j ∧
        j.status = SimulationStatus.COMPLETED) →
      get_job db uid sid = Except.error (ServiceError.simulationNotFound sid) →
      create_report db reports queue uid data rid =
        (Except.error (ServiceError.simulationNotFound sid), reports, queue)) ∧
    (∀ pre sid post j, data.simulation_job_ids = pre ++ sid :: post →
      (∀ x ∈ pre, ∃ j, get_job db uid x = Except.ok j ∧
        j.status = SimulationStatus.COMPLETED) →
      get_job db uid sid = Except.ok j → j.status ≠ SimulationStatus.COMPLETED →
      create_report db reports queue uid data rid =
        (Except.error (ServiceError.simulationNotCompleted sid), reports, queue)) := by
  refine ⟨?_, ?_, ?_⟩
  · intro h
    unfold create_report
    rw [validateSimulationRefs_none db uid data.simulation_job_ids h]
    exact ⟨_, rfl, rfl, rfl, rfl, rfl⟩
  · intro pre sid post hids hpre hsid
    have hfind : db.find? (fun x => x.id == sid && x.user_id == uid) = none := by
      unfold get_job at hsid
      revert hsid
      cases db.find? (fun x => x.id == sid && x.user_id == uid) <;> simp
    unfold create_report
    rw [hids, validateSimulationRefs_append db uid pre (sid :: post) hpre,
      validateSimulationRefs_cons, hfind]
  · intro pre sid post j hids hpre hsid hstat
    rw [get_job_ok_iff] at hsid
    unfold create_report
    rw [hids, validateSimulationRefs_append db uid pre (sid :: post) hpre,
      validateSimulationRefs_cons, hsid]
    simp [hstat]

/-- C3 witness: with job 1 COMPLETED and job 4 PENDING for user 2,
create_report([1]) persists and enqueues a PENDING report, while
create_report([1, 4]) fails naming 4 and persists and enqueues nothing. -/
theorem create_report_validation_witness :
    (∃ r, create_report [sampleCompletedJob, { samplePendingJob with id := 4 }]
        [] [] 2 ⟨"summary", "PDF", [1], none⟩ 9 = (Except.ok r, [r], [9]) ∧
      r.status = ReportStatus.PENDING ∧ r.id = 9 ∧ r.user_id = 2 ∧
      r.simulation_job_ids = [1]) ∧
    create_report [sampleCompletedJob, { samplePendingJob with id := 4 }]
        [] [] 2 ⟨"summary", "PDF", [1, 4], none⟩ 9 =
      (Except.error (ServiceError.simulationNotCompleted 4), [], []) := by
  constructor
  · exact (create_report_validation _ [] [] 2 ⟨"summary", "PDF", [1], none⟩ 9).1
      (by intro sid hsid
          simp only [List.mem_singleton] at hsid
          exact ⟨sampleCompletedJob, by subst hsid; rfl, rfl⟩)
  · exact (create_report_validation _ [] [] 2 ⟨"summary", "PDF", [1, 4], none⟩ 9).2.2
      [1] 4 [] { samplePendingJob with id := 4 } rfl
      (by intro x hx
          simp only [List.mem_singleton] at hx
          exact ⟨sampleCompletedJob, by subst hx; rfl, rfl⟩)
      rfl (by simp [samplePendingJob])

/-- update_job_status never touches the parameter fields. -/
theorem update_job_status_preserves_parameters (job : SimulationJob)
    (st : SimulationStatus) (p : Option ℚ) (ec em : Option String) (now : Nat) :
    (update_job_status job st p ec em now).parameters_s3_key = job.parameters_s3_key ∧
    (update_job_status job st p ec em now).parameters = job.parameters := by
  unfold update_job_status
  cases p <;> cases ec <;> cases em <;> simp <;> split_ifs <;> simp

/-- Parameter resolution is unaffected by a status update. -/
theorem get_job_parameters_update_job_status (store : BlobStore)
    (job : SimulationJob) (st : SimulationStatus) (p : Option ℚ)
    (ec em : Option String) (now : Nat) :
    get_job_parameters store (update_job_status job st p ec em now) =
      get_job_parameters store job := by
  unfold get_job_parameters
  rw [(update_job_status_preserves_parameters job st p ec em now).1,
    (update_job_status_preserves_parameters job st p ec em now).2]

/-- C9: when the job's parameters resolve, process_simulation marks the
job RUNNING and then persists, via save_result, exactly the document
returned by the handler registered for the job's simulation type — or by
the default placeholder handler (an echo of the type and input
parameters) when none is registered — and the job ends COMPLETED either
way. -/
theorem process_simulation_dispatch (registry : List (String × SimulationHandler))
    (store : BlobStore) (job : SimulationJob) (now : Nat) (p : Json)
    (hp : get_job_parameters store job = some p) :
    (process_simulation registry store job now).1.status = SimulationStatus.COMPLETED ∧
    (∀ handler, registryGet registry job.simulation_type = some handler →
      process_simulation registry store job now =
        save_result (update_job_status job SimulationStatus.RUNNING none none none now)
          (handler.execute (toString job.id) job.simulation_type p) store now) ∧
    (registryGet registry job.simulation_type = none →
      process_simulation registry store job now =
        save_result (update_job_status job SimulationStatus.RUNNING none none none now)
          (default_simulation_handler job.simulation_type p) store now) := by
  have hres : get_job_parameters store
      (update_job_status job SimulationStatus.RUNNING none none none now) = some p := by
    rw [get_job_parameters_update_job_status]
    exact hp
  have hty : (update_job_status job SimulationStatus.RUNNING none none none now).simulation_type
      = job.simulation_type := by
    simp only [update_job_status]
    split_ifs <;> rfl
  have hid : (update_job_status job SimulationStatus.RUNNING none none none now).id = job.id := by
    simp only [update_job_status]
    split_ifs <;> rfl
  refine ⟨?_, ?_, ?_⟩
  · simp only [process_simulation]
    rw [hres]
    cases hreg : registryGet registry
        (update_job_status job SimulationStatus.RUNNING none none none now).simulation_type <;>
      simp [save_result]
  · intro handler hreg
    simp only [process_simulation]
    rw [hres, hty, hid, hreg]
  · intro hreg
    simp only [process_simulation]
    rw [hres, hty, hid, hreg]

/-- A concrete registered handler echoing its parameters. -/
def sampleHandler : SimulationHandler :=
  ⟨fun _ _ parameters => Json.obj [("echo", parameters)]⟩

/-- C9 witness: for a job of type mc with inline parameters, dispatch with
a handler registered for mc completes the job, and so does dispatch with
an empty registry (default handler). -/
theorem process_simulation_dispatch_witness :
    (get_job_parameters [] samplePendingJob = some (Json.obj []) ∧
      (process_simulation [("mc", sampleHandler)] [] samplePendingJob 3).1.status =
        SimulationStatus.COMPLETED) ∧
    (process_simulation [] [] samplePendingJob 3).1.status =
      SimulationStatus.COMPLETED :=
  ⟨⟨rfl, (process_simulation_dispatch [("mc", sampleHandler)] [] samplePendingJob 3
      (Json.obj []) rfl).1⟩,
   (process_simulation_dispatch [] [] samplePendingJob 3 (Json.obj []) rfl).1⟩

/-- Terminal job statuses per the lifecycle specification. -/
def isTerminal : SimulationStatus → Bool
  | SimulationStatus.COMPLETED => true
  | SimulationStatus.FAILED => true
  | SimulationStatus.CANCELLED => true
  | _ => false

/-- A concrete creation request. -/
def sampleCreate : SimulationCreate :=
  { simulation_type := "mc", parameters := Json.obj [] }

/-- A COMPLETED job reached by the core itself: created via create_job and
processed once by the run-job task (empty registry, default handler). -/
def processedJob : SimulationJob :=
  (process_simulation []
    (create_job defaultSettings 2 sampleCreate 1 []).2
    (create_job defaultSettings 2 sampleCreate 1 []).1 3).1

/-- C6 counterexample: the run-job task leaves the job in the terminal
status COMPLETED, yet update_job_status — the very call a re-delivered
run-job task performs first — moves it straight back to RUNNING: a
transition out of a terminal state occurs in a reachable execution. -/
theorem terminal_exit_counterexample :
    isTerminal processedJob.status = true ∧
    (update_job_status processedJob SimulationStatus.RUNNING none none none 4).status =
      SimulationStatus.RUNNING ∧
    isTerminal (update_job_status processedJob SimulationStatus.RUNNING
      none none none 4).status = false := by
  refine ⟨rfl, rfl, rfl⟩

/-- C6 amended: only cancel_job guards against terminal states — on a
terminal job it fails naming the current status and leaves the table
unchanged — while update_job_status applies any requested status
unconditionally and save_result forces COMPLETED unconditionally, so
transitions out of a terminal state do occur through them. -/
theorem terminal_state_amended (db : List SimulationJob) (uid jid now : Nat)
    (job : SimulationJob) (h : get_job db uid jid = Except.ok job)
    (ht : isTerminal job.status = true) :
    cancel_job db uid jid now =
      (Except.error (ServiceError.invalidCancelState job.status), db) ∧
    (∀ st p ec em, (update_job_status job st p ec em now).status = st) ∧
    (∀ result store, (save_result job result store now).1.status =
      SimulationStatus.COMPLETED) := by
  refine ⟨?_, ?_, ?_⟩
  · have hns : ¬ (job.status = SimulationStatus.PENDING ∨
        job.status = SimulationStatus.RUNNING) := by
      cases hs : job.status <;> simp_all [isTerminal]
    simp [cancel_job, h, if_neg hns]
  · intro st p ec em
    unfold update_job_status
    cases p <;> cases ec <;> cases em <;> simp only [] <;> split_ifs <;> rfl
  · intro result store
    rfl

/-- C6 amended witness: cancelling the COMPLETED sample job is rejected
naming COMPLETED, while update_job_status happily sets it RUNNING. -/
theorem terminal_state_amended_witness :
    (cancel_job [sampleCompletedJob] 2 1 9 =
      (Except.error (ServiceError.invalidCancelState SimulationStatus.COMPLETED), [sampleCompletedJob])) ∧
    (update_job_status sampleCompletedJob SimulationStatus.RUNNING none none none 9).status =
      SimulationStatus.RUNNING := by
  have h := terminal_state_amended [sampleCompletedJob] 2 1 9 sampleCompletedJob rfl rfl
  exact ⟨h.1, h.2.1 SimulationStatus.RUNNING none none none⟩

/-- A job that failed once and was then retried to success, exactly as the
run-job task and its retry policy produce it: created, marked RUNNING,
marked FAILED with error fields by the task's exception path, marked
RUNNING again by the retry, then completed via save_result. -/
def retriedJob : SimulationJob :=
  (save_result
    (update_job_status
      (update_job_status
        (update_job_status (create_job defaultSettings 2 sampleCreate 1 []).1
          SimulationStatus.RUNNING none none none 1)
        SimulationStatus.FAILED none (some "SIMULATION_ERROR") (some "boom") 2)
      SimulationStatus.RUNNING none none none 3)
    (Json.obj []) [] 4).1

/-- C7 counterexample: after a failed attempt is retried to completion the
job is COMPLETED yet still carries the error fields recorded by the
earlier FAILED transition, violating the claimed invariant that error
fields are present only while FAILED. -/
theorem error_fields_counterexample :
    retriedJob.status = SimulationStatus.COMPLETED ∧
    retriedJob.error_code = some "SIMULATION_ERROR" ∧
    retriedJob.error_message = some "boom" := by
  refine ⟨rfl, rfl, rfl⟩

/-- C7 amended: error fields are introduced only by a FAILED-status update
carrying them, and no lifecycle operation ever clears them — create_job
starts them empty, non-error updates and save_result pass them through
unchanged — so after a FAILED episode they persist into later RUNNING or
COMPLETED states. -/
theorem error_fields_amended (settings : Settings) (uid : Nat)
    (data : SimulationCreate) (jid : Nat) (store store2 : BlobStore)
    (job : SimulationJob) (p : Option ℚ) (result : Json) (now : Nat)
    (c m : String) (hc : c ≠ "") (hm : m ≠ "") :
    ((create_job settings uid data jid store).1.error_code = none ∧
      (create_job settings uid data jid store).1.error_message = none) ∧
    ((update_job_status job SimulationStatus.RUNNING p none none now).error_code =
        job.error_code ∧
      (update_job_status job SimulationStatus.RUNNING p none none now).error_message =
        job.error_message) ∧
    ((save_result job result store2 now).1.error_code = job.error_code ∧
      (save_result job result store2 now).1.error_message = job.error_message) ∧
    ((update_job_status job SimulationStatus.FAILED none (some c) (some m) now).error_code =
        some c ∧
      (update_job_status job SimulationStatus.FAILED none (some c) (some m) now).error_message =
        some m) := by
  refine ⟨?_, ?_, ⟨rfl, rfl⟩, ?_⟩
  · simp only [create_job]
    split_ifs <;> exact ⟨rfl, rfl⟩
  · unfold update_job_status
    cases p <;> simp only [] <;> split_ifs <;> exact ⟨rfl, rfl⟩
  · unfold update_job_status
    simp only []
    split_ifs <;> simp_all

/-- C7 amended witness: a fresh job carries no error fields; a RUNNING
update on the failed sample preserves them; the FAILED update with
nonempty code and message records them. -/
theorem error_fields_amended_witness :
    ("SIMULATION_ERROR" : String) ≠ "" ∧ ("boom" : String) ≠ "" ∧
    (create_job defaultSettings 2 sampleCreate 1 []).1.error_code = none ∧
    (update_job_status samplePendingJob SimulationStatus.FAILED none
      (some "SIMULATION_ERROR") (some "boom") 2).error_code =
        some "SIMULATION_ERROR" ∧
    (update_job_status samplePendingJob SimulationStatus.FAILED none
      (some "SIMULATION_ERROR") (some "boom") 2).error_message = some "boom" := by
  have h := error_fields_amended defaultSettings 2 sampleCreate 1 [] []
    samplePendingJob none (Json.obj []) 2 "SIMULATION_ERROR" "boom"
    (by decide) (by decide)
  exact ⟨by decide, by decide, h.1.1, h.2.2.2.1, h.2.2.2.2⟩

/-- A report owned by user 2 referencing simulation job 1. -/
def sampleReport : Report :=
  { id := 9
    user_id := 2
    report_type := "summary"
    output_format := "PDF"
    status := ReportStatus.PENDING
    simulation_job_ids := [1]
    parameters := Json.obj [] }

/-- C8 counterexample: job 1 is PENDING — not COMPLETED, so its result is
not accessible — yet the run-report task does not fail: get_job_result
hands it a status-placeholder document and the report is generated and
marked COMPLETED from that partial input. -/
theorem generate_report_partial_inputs_counterexample :
    samplePendingJob.status ≠ SimulationStatus.COMPLETED ∧
    (∃ v, get_job_result [samplePendingJob] [] 2 1 = Except.ok v) ∧
    (generate_report [samplePendingJob] [] [] sampleReport 5).2.2 = none ∧
    (generate_report [samplePendingJob] [] [] sampleReport 5).1.status =
      ReportStatus.COMPLETED := by
  refine ⟨by decide, ⟨_, rfl⟩, rfl, rfl⟩

/-- update_report_status always records exactly the requested status. -/
theorem update_report_status_status (report : Report) (st : ReportStatus)
    (ec em : Option String) (now : Nat) :
    (update_report_status report st ec em now).status = st := by
  unfold update_report_status
  cases ec <;> cases em <;> simp only [] <;> split_ifs <;> rfl

/-- C8 amended: the run-report task fails when a referenced job is absent
(or foreign) or is COMPLETED without an accessible stored result, and any
error raised while gathering makes the task mark the report FAILED and
re-raise; but a referenced job that is merely no longer COMPLETED does
not fail the task — get_job_result returns a status-placeholder document
and generation proceeds with it. -/
theorem report_result_access_amended (db : List SimulationJob)
    (store : BlobStore) (uid jid : Nat) :
    (get_job db uid jid = Except.error (ServiceError.simulationNotFound jid) →
      get_job_result db store uid jid =
        Except.error (ServiceError.simulationNotFound jid)) ∧
    (∀ j, get_job db uid jid = Except.ok j →
      j.status = SimulationStatus.COMPLETED → j.result_s3_key = none →
      get_job_result db store uid jid =
        Except.error (ServiceError.resultNotFound jid)) ∧
    (∀ j, get_job db uid jid = Except.ok j →
      j.status ≠ SimulationStatus.COMPLETED →
      get_job_result db store uid jid = Except.ok (Json.obj
        [("job_id", Json.str (toString j.id)),
         ("status", Json.str (statusValue j.status)),
         ("message", Json.str ("Simulation is " ++ (statusValue j.status).toLower))])) ∧
    (∀ registry report now,
      (∀ e, gather_simulation_results db store report.user_id
          report.simulation_job_ids = Except.error e →
        (generate_report db store registry report now).2.2 = some e ∧
        (generate_report db store registry report now).1.status = ReportStatus.FAILED) ∧
      (∀ rs, gather_simulation_results db store report.user_id
          report.simulation_job_ids = Except.ok rs →
        (generate_report db store registry report now).2.2 = none ∧
        (generate_report db store registry report now).1.status =
          ReportStatus.COMPLETED)) := by
  refine ⟨?_, ?_, ?_, ?_⟩
  · intro h
    unfold get_job_result
    rw [h]
  · intro j hj hstat hres
    unfold get_job_result
    rw [hj]
    simp only [hstat, ne_eq, not_true_eq_false, if_false, ite_false, hres]
  · intro j hj hstat
    unfold get_job_result
    rw [hj]
    simp only [hstat, ne_eq, not_false_eq_true, if_true, ite_true]
  · intro registry report now
    have hu : (update_report_status report ReportStatus.GENERATING none none now).user_id =
        report.user_id := rfl
    have hs : (update_report_status report ReportStatus.GENERATING none none now).simulation_job_ids =
        report.simulation_job_ids := rfl
    constructor
    · intro e hg
      simp only [generate_report, hu, hs, hg]
      exact ⟨trivial, update_report_status_status _ _ _ _ _⟩
    · intro rs hg
      simp only [generate_report, hu, hs, hg]
      exact ⟨trivial, rfl⟩

/-- C8 amended witness: a missing reference and a COMPLETED job without a
stored result fail result access; an empty table makes the run-report
task mark the report FAILED. -/
theorem report_result_access_amended_witness :
    (get_job ([] : List SimulationJob) 2 1 =
        Except.error (ServiceError.simulationNotFound 1) ∧
      get_job_result [] [] 2 1 = Except.error (ServiceError.simulationNotFound 1)) ∧
    (get_job_result [sampleCompletedJob] [] 2 1 =
      Except.error (ServiceError.resultNotFound 1)) ∧
    (gather_simulation_results [] [] sampleReport.user_id
        sampleReport.simulation_job_ids =
      Except.error (ServiceError.simulationNotFound 1)) ∧
    (generate_report [] [] [] sampleReport 5).1.status = ReportStatus.FAILED := by
  refine ⟨⟨rfl, ?_⟩, ?_, rfl, ?_⟩
  · exact (report_result_access_amended [] [] 2 1).1 rfl
  · exact (report_result_access_amended [sampleCompletedJob] [] 2 1).2.1
      sampleCompletedJob rfl rfl rfl
  · exact (((report_result_access_amended [] [] 2 1).2.2.2 [] sampleReport 5).1
      (ServiceError.simulationNotFound 1) rfl).2
